import Mathlib

/-!
Shallow embedding of the chat endpoint in
`supabase/functions/gemini-chat/index.ts` (the RAG version of the handler).

The handler is a single request pipeline:
message validation → query embedding → vector similarity search →
context assembly → system-prompt building → generation call.

External collaborators (environment variables, the embedding service, the
vector store RPC and the generation service) are modelled as an explicit
environment `Env` whose fields give the outcome of each outbound call.
The pipeline `handleChatRequest` is a pure function of the request and the
environment; alongside the result it produces a `Trace` recording which
outbound calls were made and with which arguments, so that claims about
"step X is (not) invoked" are statable.
-/

/-- JavaScript truthiness of an optional string: `undefined`/`null` and the
empty string are falsy, every other string is truthy. -/
def jsTruthyStr : Option String → Bool
  | none => false
  | some s => !(s = "")

/-- JavaScript `a || b` for an optional string `a` and a string default `b`:
returns `b` when `a` is absent or empty (falsy), else the string in `a`. -/
def jsOrStr (a : Option String) (b : String) : String :=
  match a with
  | none => b
  | some s => if s = "" then b else s

/-- One turn of the caller-supplied chat history
(`msg: { role: string; content: string }` in the source). -/
structure Msg where
  role : String
  content : String
deriving DecidableEq, Repr

/-- One entry of the `contents` array sent to the generation API: a role and
the text of the single part (`parts: [{ text }]` in the source). -/
structure GeminiMsg where
  role : String
  text : String
deriving DecidableEq, Repr

/-- A row returned by the `match_documents` RPC: `content`, optional
`metadata.filename`, and the similarity score. The handler never reads the
score (no local re-filtering). -/
structure Doc where
  content : String
  filename : Option String
  similarity : ℚ
deriving DecidableEq, Repr

/-- The incoming request body `{ message, chatHistory, model }`.
An absent `message` behaves like the empty string (both falsy), so `message`
is a plain string; `chatHistory` and `model` may be absent. -/
structure ChatRequest where
  message : String
  chatHistory : Option (List Msg)
  model : Option String
deriving DecidableEq, Repr

/-- Arguments of the `match_documents` RPC call
(`query_embedding`, `match_threshold`, `match_count`). -/
structure SearchRequest where
  queryEmbedding : List ℚ
  matchThreshold : ℚ
  matchCount : Nat
deriving DecidableEq, Repr

/-- Outcome of the embedding `fetch`: a rejected promise / thrown error, a
non-ok HTTP response, or an ok response whose parsed body has
`embedding.values` equal to the given optional vector. -/
inductive EmbedOutcome where
  | thrown : EmbedOutcome
  | httpError : EmbedOutcome
  | ok : Option (List ℚ) → EmbedOutcome
deriving DecidableEq, Repr

/-- Outcome of the `match_documents` RPC: a thrown error, a non-null
`error` field, or a `data` field (possibly null) holding the returned rows. -/
inductive SearchOutcome where
  | thrown : SearchOutcome
  | err : String → SearchOutcome
  | ok : Option (List Doc) → SearchOutcome
deriving DecidableEq, Repr

/-- One part of a generation candidate (`parts: [{ text?: string }]`). -/
structure GenPart where
  text : Option String
deriving DecidableEq, Repr

/-- Content of a generation candidate (`content: { parts: [...] }`). -/
structure GenContent where
  parts : List GenPart
deriving DecidableEq, Repr

/-- One candidate of the generation response. -/
structure GenCandidate where
  content : Option GenContent
deriving DecidableEq, Repr

/-- Parsed body of the generation response (`data.candidates`). -/
structure GenData where
  candidates : List GenCandidate
deriving DecidableEq, Repr

/-- Outcome of the generation `fetch`: a thrown error with its message, or a
response with its `ok` flag, HTTP `status` and parsed body. -/
inductive GenOutcome where
  | thrown : String → GenOutcome
  | resp : Bool → Nat → GenData → GenOutcome
deriving DecidableEq, Repr

/-- The environment of one invocation: the `GEMINI_API_KEY` variable and the
outcome each outbound call would have if made. -/
structure Env where
  apiKey : Option String
  embedResp : EmbedOutcome
  searchResp : SearchOutcome
  genResp : GenOutcome
deriving DecidableEq, Repr

/-- The generation request assembled by the handler: model name, the
`contents` array, the fixed generation parameters and the system
instruction text. -/
structure GenRequest where
  modelName : String
  contents : List GeminiMsg
  temperature : ℚ
  topK : Nat
  topP : ℚ
  maxOutputTokens : Nat
  systemInstruction : String
deriving DecidableEq, Repr

/-- Result of one pipeline run: the JSON success body `{ response }` or the
JSON error body `{ error }` with its HTTP status (the handler always uses
status 500 for errors). -/
inductive PipelineResult where
  | success : String → PipelineResult
  | failure : String → Nat → PipelineResult
deriving DecidableEq, Repr

/-- Trace of the outbound calls of one run: the text sent to the embedding
service (if called), the search RPC arguments (if called), the assembled
retrieved-context block (if the run got that far) and the generation request
(if sent). -/
structure Trace where
  embedCall : Option String
  searchCall : Option SearchRequest
  contextBlock : Option String
  genCall : Option GenRequest
deriving DecidableEq, Repr

/-- Formatting of one retrieved document, from the source:
a source-label line using `metadata.filename` with the JavaScript-falsy
default to the literal `Unknown`, followed by the document content. -/
def formatDoc (d : Doc) : String :=
  "--- 文件來源: " ++ jsOrStr d.filename "Unknown" ++ " ---\n" ++ d.content

/-- The retrieved-context block assembled from the returned rows:
`documents.map(formatDoc).join` with a blank-line separator. -/
def retrievedContextOf (docs : List Doc) : String :=
  String.intercalate "\n\n" (docs.map formatDoc)

/-- The fixed persona part of the system-instruction template literal: the
static text up to the interpolation point (it ends with the blank line that
separates the persona from the optional context section). -/
def personaText : String :=
  "你是 Lily，一位專業的 AI 創意合夥人。\n- 100% 使用繁體中文回覆\n- 你的夥伴是一位專業導演，記得夏娃、妮妮與啾弟\n- 主動提出優化方案或解決路徑\n- 當使用新技術概念時，用導演術語或影像比喻解釋\n- 保持自然溫暖的對話風格\n\n"

/-- The context section interpolated into the system instruction when the
retrieved context is non-empty. -/
def contextSection (ctx : String) : String :=
  "\n🔍【相關知識庫資料】\n以下是從導演的資料庫中找到的相關背景資料，請參考這些內容來回答問題：\n\n"
    ++ ctx
    ++ "\n\n(引用資料時，請自然融入回答，不用刻意說\"根據資料...\")"

/-- The system instruction: persona text followed by the context section when
the retrieved context string is truthy (non-empty), else nothing more. -/
def systemPromptText (retrievedContext : String) : String :=
  personaText ++ (if retrievedContext = "" then "" else contextSection retrievedContext)

/-- Conversion of one history turn for the generation API:
role `user` stays `user`, every other role becomes `model`. -/
def convMsg (m : Msg) : GeminiMsg :=
  ⟨if m.role = "user" then "user" else "model", m.content⟩

/-- The `contents` array: the mapped history (empty when `chatHistory` is
absent) with the current message pushed as a final `user` turn. -/
def buildContents (chatHistory : Option (List Msg)) (message : String) :
    List GeminiMsg :=
  ((chatHistory.map (fun h => h.map convMsg)).getD []) ++ [⟨"user", message⟩]

/-- The fixed fallback reply used when the generation response has no
extractable text. -/
def fallbackReply : String := "抱歉，我無法生成回覆。"

/-- The optional-chain extraction
`data.candidates?.[0]?.content?.parts?.[0]?.text`. -/
def extractText (d : GenData) : Option String :=
  match d.candidates.head? with
  | none => none
  | some c =>
    match c.content with
    | none => none
    | some ct =>
      match ct.parts.head? with
      | none => none
      | some p => p.text

/-- The RAG flow (the inner try/catch): returns the retrieved-context string
and, when the search RPC was reached, its arguments. Every failure of the
embedding call or of the search leaves the context empty and is absorbed. -/
def ragFlow (env : Env) (_message : String) : String × Option SearchRequest :=
  match env.embedResp with
  | EmbedOutcome.thrown => ("", none)
  | EmbedOutcome.httpError => ("", none)
  | EmbedOutcome.ok values =>
    match values with
    | none => ("", none)
    | some embedding =>
      let sreq : SearchRequest := ⟨embedding, 1/2, 5⟩
      match env.searchResp with
      | SearchOutcome.thrown => ("", some sreq)
      | SearchOutcome.err _ => ("", some sreq)
      | SearchOutcome.ok docs =>
        match docs with
        | none => ("", some sreq)
        | some ds =>
          if 0 < ds.length then (retrievedContextOf ds, some sreq)
          else ("", some sreq)

/-- The tail of the pipeline after the generation fetch: a non-ok response
throws into the outer catch carrying the upstream status; an ok response
yields the extracted text with the JavaScript-falsy fallback. -/
def genResult : GenOutcome → PipelineResult
  | GenOutcome.thrown msg => PipelineResult.failure msg 500
  | GenOutcome.resp ok status data =>
    if ok then PipelineResult.success (jsOrStr (extractText data) fallbackReply)
    else PipelineResult.failure ("Gemini API error: " ++ toString status) 500

/-- The main branch of the handler, reached once the API key and the message
checks have passed: RAG flow, conversation building, prompt building, and
the generation call. -/
def mainFlow (env : Env) (req : ChatRequest) : PipelineResult × Trace :=
  let modelName := jsOrStr req.model "gemini-3-flash-preview"
  let rag := ragFlow env req.message
  let contents := buildContents req.chatHistory req.message
  let sysText := systemPromptText rag.1
  let genReq : GenRequest := ⟨modelName, contents, 9/10, 40, 19/20, 2048, sysText⟩
  (genResult env.genResp, ⟨some req.message, rag.2, some rag.1, some genReq⟩)

/-- The whole handler body (the outer try/catch): missing API key and missing
message throw before any outbound call; otherwise the main flow runs. -/
def handleChatRequest (env : Env) (req : ChatRequest) : PipelineResult × Trace :=
  if !jsTruthyStr env.apiKey then
    (PipelineResult.failure "GEMINI_API_KEY not configured" 500, ⟨none, none, none, none⟩)
  else if req.message = "" then
    (PipelineResult.failure "Message is required" 500, ⟨none, none, none, none⟩)
  else mainFlow env req

/-- Sample generation body with one candidate holding one non-empty part. -/
def sampleGenData : GenData := ⟨[⟨some ⟨[⟨some "收到"⟩]⟩⟩]⟩

/-- Sample successful generation outcome. -/
def sampleGenOk : GenOutcome := GenOutcome.resp true 200 sampleGenData

/-- Generation body with no candidates (no extractable text). -/
def emptyGenData : GenData := ⟨[]⟩

/-- Sample retrieved document with a filename. -/
def sampleDocA : Doc := ⟨"proposal deadline is Friday", some "brief.pdf", 4/5⟩

/-- Second sample retrieved document. -/
def sampleDocB : Doc := ⟨"shooting notes", some "notes.txt", 3/5⟩

/-- Sample request with a non-empty message and no history. -/
def reqHello : ChatRequest := ⟨"hello", none, none⟩

/-- Sample request with an empty message. -/
def reqEmpty : ChatRequest := ⟨"", none, none⟩

/-- Environment where the embedding fetch throws (network failure). -/
def envEmbedFail : Env :=
  ⟨some "key", EmbedOutcome.thrown, SearchOutcome.ok (some [sampleDocA]), sampleGenOk⟩

/-- Environment where embedding and search both succeed with two documents. -/
def envSearchOk : Env :=
  ⟨some "key", EmbedOutcome.ok (some [1, 0]), SearchOutcome.ok (some [sampleDocA, sampleDocB]),
    sampleGenOk⟩

/-- Environment where the generation service answers with a non-success
status. -/
def envGenFail : Env :=
  ⟨some "key", EmbedOutcome.thrown, SearchOutcome.thrown, GenOutcome.resp false 503 emptyGenData⟩

/-- Environment where generation succeeds but its body has no extractable
text. -/
def envGenEmpty : Env :=
  ⟨some "key", EmbedOutcome.thrown, SearchOutcome.thrown, GenOutcome.resp true 200 emptyGenData⟩

/-- Environment where the embedding response is ok but has no values field. -/
def envNoValues : Env :=
  ⟨some "key", EmbedOutcome.ok none, SearchOutcome.thrown, sampleGenOk⟩

/-- Environment where the embedding response carries an empty values array
and the subsequent search errors out. -/
def envEmptyValues : Env :=
  ⟨some "key", EmbedOutcome.ok (some []), SearchOutcome.err "boom", sampleGenOk⟩

/-! ### Helper lemmas -/

/-- Appending the empty context leaves the persona text unchanged. -/
theorem systemPromptText_empty : systemPromptText "" = personaText := by
  simp [systemPromptText]

/-- Auxiliary: the accumulator of the intercalate loop factors out on the
left. -/
theorem intercalate_go_append (x y s : String) (l : List String) :
    String.intercalate.go (x ++ y) s l = x ++ String.intercalate.go y s l := by
  induction l generalizing y with
  | nil => rfl
  | cons a as ih =>
    show String.intercalate.go (x ++ y ++ s ++ a) s as
        = x ++ String.intercalate.go (y ++ s ++ a) s as
    rw [String.append_assoc x y s, String.append_assoc x (y ++ s) a]
    exact ih ((y ++ s) ++ a)

/-- Recursive characterization of String.intercalate. -/
theorem intercalate_cons (s a : String) (l : List String) :
    String.intercalate s (a :: l)
      = a ++ (if l = [] then "" else s ++ String.intercalate s l) := by
  cases l with
  | nil => simp [String.intercalate, String.intercalate.go]
  | cons b bs =>
    have h1 : String.intercalate s (a :: b :: bs)
        = String.intercalate.go ((a ++ s) ++ b) s bs := rfl
    have h2 : String.intercalate s (b :: bs) = String.intercalate.go b s bs := rfl
    rw [h1, h2, intercalate_go_append (a ++ s) b s bs, String.append_assoc]
    simp

/-- Any failure of the embedding call or of the search leaves the retrieved
context empty. -/
theorem ragFlow_fail (env : Env) (m : String)
    (hfail : env.embedResp = EmbedOutcome.thrown ∨ env.embedResp = EmbedOutcome.httpError ∨
      env.searchResp = SearchOutcome.thrown ∨ ∃ e, env.searchResp = SearchOutcome.err e) :
    (ragFlow env m).1 = "" := by
  rcases hfail with h | h | h | ⟨e, h⟩
  · simp [ragFlow, h]
  · simp [ragFlow, h]
  · cases he : env.embedResp with
    | thrown => simp [ragFlow, he]
    | httpError => simp [ragFlow, he]
    | ok values =>
      cases values with
      | none => simp [ragFlow, he]
      | some v => simp [ragFlow, he, h]
  · cases he : env.embedResp with
    | thrown => simp [ragFlow, he]
    | httpError => simp [ragFlow, he]
    | ok values =>
      cases values with
      | none => simp [ragFlow, he]
      | some v => simp [ragFlow, he, h]

/-- The trace of the main flow, spelled out. -/
theorem mainFlow_trace (env : Env) (req : ChatRequest) :
    (mainFlow env req).2 = ⟨some req.message, (ragFlow env req.message).2,
      some (ragFlow env req.message).1,
      some ⟨jsOrStr req.model "gemini-3-flash-preview",
        buildContents req.chatHistory req.message, 9/10, 40, 19/20, 2048,
        systemPromptText (ragFlow env req.message).1⟩⟩ := rfl

/-- The result of the main flow is the generation result. -/
theorem mainFlow_result (env : Env) (req : ChatRequest) :
    (mainFlow env req).1 = genResult env.genResp := rfl

/-- When the API key is configured and the message is non-empty, the handler
runs the main flow. -/
theorem handle_main (env : Env) (req : ChatRequest)
    (hk : jsTruthyStr env.apiKey = true) (hm : ¬ req.message = "") :
    handleChatRequest env req = mainFlow env req := by
  simp [handleChatRequest, hk, hm]

/-! ### Claim theorems -/

/-- C1: for every request with a non-empty message, if the embedding step or
the similarity-search step fails (thrown fetch, non-ok embedding response,
or search error), the pipeline does not abort: it still reaches the
generation step and the context block it carries is the empty string. -/
theorem retrieval_failure_never_aborts (env : Env) (req : ChatRequest)
    (hk : jsTruthyStr env.apiKey = true) (hm : ¬ req.message = "")
    (hfail : env.embedResp = EmbedOutcome.thrown ∨ env.embedResp = EmbedOutcome.httpError ∨
      env.searchResp = SearchOutcome.thrown ∨ ∃ e, env.searchResp = SearchOutcome.err e) :
    (handleChatRequest env req).2.contextBlock = some "" ∧
      (handleChatRequest env req).2.genCall.isSome = true := by
  rw [handle_main env req hk hm, mainFlow_trace, ragFlow_fail env req.message hfail]
  exact ⟨rfl, rfl⟩

/-- Witness for C1 at a concrete input: embedding fetch throws, yet the
generation request is still assembled with an empty context. -/
theorem retrieval_failure_never_aborts_witness :
    (handleChatRequest envEmbedFail reqHello).2.contextBlock = some "" ∧
      (handleChatRequest envEmbedFail reqHello).2.genCall.isSome = true :=
  retrieval_failure_never_aborts envEmbedFail reqHello (by decide) (by decide) (Or.inl rfl)

/-- C2: whenever the run reaches generation with an empty context block, the
system instruction sent to the generation model is exactly the fixed persona
template, with nothing appended. -/
theorem empty_context_prompt_is_persona (env : Env) (req : ChatRequest)
    (h : (handleChatRequest env req).2.contextBlock = some "") :
    Option.map GenRequest.systemInstruction (handleChatRequest env req).2.genCall
      = some personaText := by
  cases hk : jsTruthyStr env.apiKey with
  | false =>
    exfalso
    simp [handleChatRequest, hk] at h
  | true =>
    by_cases hm : req.message = ""
    · exfalso
      simp [handleChatRequest, hk, hm] at h
    · rw [handle_main env req hk hm, mainFlow_trace] at h ⊢
      have hc : (ragFlow env req.message).1 = "" := by simpa using h
      show some (systemPromptText (ragFlow env req.message).1) = some personaText
      rw [hc, systemPromptText_empty]

/-- Witness for C2 at a concrete input with a failed embedding call. -/
theorem empty_context_prompt_is_persona_witness :
    Option.map GenRequest.systemInstruction (handleChatRequest envEmbedFail reqHello).2.genCall
      = some personaText :=
  empty_context_prompt_is_persona envEmbedFail reqHello rfl

/-- C3: when the generation service answers with a non-success response, the
pipeline result is the structured error carrying the upstream status (and,
being the failure alternative of the result type, it has no reply field). -/
theorem generation_failure_is_terminal (env : Env) (req : ChatRequest)
    (hk : jsTruthyStr env.apiKey = true) (hm : ¬ req.message = "")
    (status : Nat) (data : GenData)
    (hg : env.genResp = GenOutcome.resp false status data) :
    (handleChatRequest env req).1
      = PipelineResult.failure ("Gemini API error: " ++ toString status) 500 := by
  rw [handle_main env req hk hm, mainFlow_result, hg]
  rfl

/-- Witness for C3 at a concrete input with upstream status 503. -/
theorem generation_failure_is_terminal_witness :
    (handleChatRequest envGenFail reqHello).1
      = PipelineResult.failure ("Gemini API error: " ++ toString 503) 500 :=
  generation_failure_is_terminal envGenFail reqHello (by decide) (by decide) 503
    emptyGenData rfl

/-- C4: an empty message fails fast with the missing-message error (the
handler throws `Message is required`, surfaced with status 500) and the
embedding call is never made. -/
theorem empty_message_fails_fast (env : Env) (req : ChatRequest)
    (hk : jsTruthyStr env.apiKey = true) (hm : req.message = "") :
    (handleChatRequest env req).1 = PipelineResult.failure "Message is required" 500 ∧
      (handleChatRequest env req).2.embedCall = none := by
  simp [handleChatRequest, hk, hm]

/-- Witness for C4 at a concrete empty-message request. -/
theorem empty_message_fails_fast_witness :
    (handleChatRequest envSearchOk reqEmpty).1
        = PipelineResult.failure "Message is required" 500 ∧
      (handleChatRequest envSearchOk reqEmpty).2.embedCall = none :=
  empty_message_fails_fast envSearchOk reqEmpty (by decide) rfl

/-- C5: when the generation call succeeds but the parsed response has no
extractable text, the pipeline returns the fixed fallback reply as a
success. -/
theorem empty_generation_falls_back (env : Env) (req : ChatRequest)
    (hk : jsTruthyStr env.apiKey = true) (hm : ¬ req.message = "")
    (status : Nat) (data : GenData)
    (hg : env.genResp = GenOutcome.resp true status data)
    (ht : extractText data = none) :
    (handleChatRequest env req).1 = PipelineResult.success fallbackReply := by
  rw [handle_main env req hk hm, mainFlow_result, hg]
  simp [genResult, jsOrStr, ht]

/-- Witness for C5 at a concrete input whose generation body has no
candidates. -/
theorem empty_generation_falls_back_witness :
    (handleChatRequest envGenEmpty reqHello).1 = PipelineResult.success fallbackReply :=
  empty_generation_falls_back envGenEmpty reqHello (by decide) (by decide) 200
    emptyGenData rfl rfl

/-- C6: for every chat history and non-empty query, the conversation payload
has length history + 1, starts with the history converted in order (no
reordering, no deduplication), and ends with the current query as a `user`
turn. -/
theorem buildConversation_shape (h : List Msg) (q : String) (_hq : ¬ q = "") :
    (buildContents (some h) q).length = h.length + 1 ∧
      (buildContents (some h) q).take h.length = h.map convMsg ∧
      (buildContents (some h) q).getLast? = some ⟨"user", q⟩ := by
  refine ⟨?_, ?_, ?_⟩
  · show ((h.map convMsg) ++ [GeminiMsg.mk "user" q]).length = h.length + 1
    simp
  · show ((h.map convMsg) ++ [GeminiMsg.mk "user" q]).take h.length = h.map convMsg
    exact List.take_left' (by simp)
  · show ((h.map convMsg) ++ [GeminiMsg.mk "user" q]).getLast? = some (GeminiMsg.mk "user" q)
    exact List.getLast?_concat _

/-- Witness for C6 at a one-turn history and a concrete query. -/
theorem buildConversation_shape_witness :
    (buildContents (some [Msg.mk "assistant" "嗨"]) "hi").length
        = [Msg.mk "assistant" "嗨"].length + 1 ∧
      (buildContents (some [Msg.mk "assistant" "嗨"]) "hi").take
          [Msg.mk "assistant" "嗨"].length
        = [Msg.mk "assistant" "嗨"].map convMsg ∧
      (buildContents (some [Msg.mk "assistant" "嗨"]) "hi").getLast?
        = some ⟨"user", "hi"⟩ :=
  buildConversation_shape [Msg.mk "assistant" "嗨"] "hi" (by decide)

/-- C7: for every non-empty passage list, the context block is the head
passage's labeled block (source label defaulting to `Unknown`) followed, when
more passages remain, by a blank-line separator and the block of the rest —
one block per passage, in input order. -/
theorem context_block_structure (d : Doc) (ds : List Doc) :
    retrievedContextOf (d :: ds)
      = ("--- 文件來源: " ++ jsOrStr d.filename "Unknown" ++ " ---\n" ++ d.content)
        ++ (if ds = [] then "" else "\n\n" ++ retrievedContextOf ds) := by
  show String.intercalate "\n\n" (formatDoc d :: ds.map formatDoc) = _
  rw [intercalate_cons]
  cases ds with
  | nil => simp [formatDoc]
  | cons e es => simp [formatDoc, retrievedContextOf]

/-- C8: the role mapping is total over arbitrary role strings: it lands in
the two-role vocabulary, sends exactly `user` to `user` and everything else
to `model`, and keeps the turn text. -/
theorem role_normalization_total (m : Msg) :
    ((convMsg m).role = "user" ∨ (convMsg m).role = "model") ∧
      ((convMsg m).role = "user" ↔ m.role = "user") ∧
      (convMsg m).text = m.content := by
  by_cases h : m.role = "user" <;> simp [convMsg, h]

/-- C9: with a successful embedding and search, the search RPC is called with
threshold 1/2 and count 5, and the context block is assembled from exactly
the returned rows, mapped one-to-one in order (no local re-filtering or
re-sorting). -/
theorem search_params_and_passthrough (env : Env) (req : ChatRequest)
    (hk : jsTruthyStr env.apiKey = true) (hm : ¬ req.message = "")
    (v : List ℚ) (ds : List Doc)
    (he : env.embedResp = EmbedOutcome.ok (some v))
    (hs : env.searchResp = SearchOutcome.ok (some ds)) :
    (handleChatRequest env req).2.searchCall = some ⟨v, 1/2, 5⟩ ∧
      (handleChatRequest env req).2.contextBlock
        = some (String.intercalate "\n\n" (ds.map formatDoc)) := by
  rw [handle_main env req hk hm, mainFlow_trace]
  have hrag : ragFlow env req.message
      = (String.intercalate "\n\n" (ds.map formatDoc), some ⟨v, 1/2, 5⟩) := by
    cases ds with
    | nil => simp [ragFlow, he, hs, retrievedContextOf, String.intercalate]
    | cons e es => simp [ragFlow, he, hs, retrievedContextOf]
  rw [hrag]
  exact ⟨rfl, rfl⟩

/-- Witness for C9 at a concrete two-document search result. -/
theorem search_params_and_passthrough_witness :
    (handleChatRequest envSearchOk reqHello).2.searchCall = some ⟨[1, 0], 1/2, 5⟩ ∧
      (handleChatRequest envSearchOk reqHello).2.contextBlock
        = some (String.intercalate "\n\n" ([sampleDocA, sampleDocB].map formatDoc)) :=
  search_params_and_passthrough envSearchOk reqHello (by decide) (by decide) [1, 0]
    [sampleDocA, sampleDocB] rfl rfl

/-- C10 (counterexample): with a successful embedding response whose values
field is the empty array, the search RPC is still invoked, with the empty
vector as query embedding — the claim that an empty values field skips the
search entirely is false on the code, since an empty array is truthy. -/
theorem embedding_empty_values_still_searches :
    (handleChatRequest envEmptyValues reqHello).2.searchCall
      = some ⟨[], 1/2, 5⟩ := rfl

/-- C10 (amended): when the embedding response is ok but the values field is
missing, the search is skipped entirely, the context block stays empty, and
the run still reaches generation without surfacing any retrieval error. -/
theorem missing_values_skips_search (env : Env) (req : ChatRequest)
    (hk : jsTruthyStr env.apiKey = true) (hm : ¬ req.message = "")
    (he : env.embedResp = EmbedOutcome.ok none) :
    (handleChatRequest env req).2.searchCall = none ∧
      (handleChatRequest env req).2.contextBlock = some "" ∧
      (handleChatRequest env req).2.genCall.isSome = true := by
  rw [handle_main env req hk hm, mainFlow_trace]
  have hrag : ragFlow env req.message = ("", none) := by simp [ragFlow, he]
  rw [hrag]
  exact ⟨rfl, rfl, rfl⟩

/-- Witness for the amended C10 at a concrete input with a missing values
field. -/
theorem missing_values_skips_search_witness :
    (handleChatRequest envNoValues reqHello).2.searchCall = none ∧
      (handleChatRequest envNoValues reqHello).2.contextBlock = some "" ∧
      (handleChatRequest envNoValues reqHello).2.genCall.isSome = true :=
  missing_values_skips_search envNoValues reqHello (by decide) (by decide) rfl
